import Mathlib

/-
Verification of the client-side multi-step identity-verification flow
(document upload → OCR → selfie → face comparison) of the finguard-ai
frontend.  The embedding follows the final multi-step implementation:
the globals `ocrResult` and `documentImageFile`, the step navigation
`goToStep`, `resetVerification`, the form wiring of `setupOCRForm` /
`setupSelfieForm`, and the two submission handlers
`processOCRAndContinue` and `processFaceComparison`.

Remote calls are modelled by passing the would-be server response as an
oracle argument; each operation returns the successor session state
together with the list of observable side effects (toasts, loading
overlay switches, outbound requests) it performs, in order.  The
`try`/`catch` wrappers of the handlers are modelled by totality: every
branch, the transport-error one included, returns a state.
-/

namespace FinGuard

/-- A browser `File` as the flow observes it: name, declared media type
(the JS `file.type`), and byte size. -/
structure File where
  name : String
  type : String
  size : Nat
  deriving DecidableEq

/-- Validation block of the structured OCR payload (`data.data.validation`
of the `/kyc/ocr` response). -/
structure ValidationInfo where
  is_valid : Bool
  confidence_level : String
  issues : List String
  deriving DecidableEq

/-- Structured OCR payload (`data.data` of the `/kyc/ocr` response).
Confidence numbers are display-only for the controller and are modelled
as integers. -/
structure OCRData where
  document_type : String
  extracted_details : List (String × String)
  ocr_confidence : Int
  validation : ValidationInfo
  raw_text : String
  deriving DecidableEq

/-- The `comparison` block of the face-comparison payload. -/
structure FaceComparison where
  similarity_percentage : Int
  is_match : Bool
  confidence : Int
  deriving DecidableEq

/-- The `verification` block of the face-comparison payload. -/
structure FaceVerdict where
  verdict : String
  message : String
  recommendation : String
  deriving DecidableEq

/-- The `age_analysis` block of the face-comparison payload. -/
structure AgeAnalysis where
  significant_gap : Bool
  age_gap : Int
  deriving DecidableEq

/-- Structured face-comparison payload (`data.data` of the
`/kyc/face-compare` response); `feature_comparison` maps a feature name
to its similarity and match flag. -/
structure FaceData where
  comparison : FaceComparison
  verification : FaceVerdict
  age_analysis : AgeAnalysis
  feature_comparison : List (String × Int × Bool)
  deriving DecidableEq

/-- A multipart form value: a binary file or a plain string. -/
inductive FormValue where
  | file (f : File)
  | str (s : String)
  deriving DecidableEq

/-- Observable side effects of the handlers, in program order:
`toast message severity` models `showToast`, `loading b` models
`showLoading`, and `request path form` models a `fetch` POST of the
given multipart form to `API_BASE_URL ++ path`. -/
inductive Effect where
  | toast (message severity : String)
  | loading (shown : Bool)
  | request (path : String) (form : List (String × FormValue))
  deriving DecidableEq

/-- Outcome of one remote call as the handler sees it: either the
`fetch`/`response.json()` chain throws (`transportError`), or a JSON
body `{success, data?, error?}` is obtained. -/
inductive ApiResponse (α : Type) where
  | transportError
  | ok (success : Bool) (data : Option α) (error : String)
  deriving DecidableEq

/-- The session state of one verification attempt: the visible wizard
step (`goToStep`'s argument), the two module-level globals `ocrResult`
and `documentImageFile`, the current selections of the two file inputs,
the value of the `doc-type-ocr` select, and the face-comparison payload
rendered into the `combined-results` container by
`displayCombinedResults` (the only place the code keeps that payload). -/
structure VerificationState where
  currentStep : Nat
  documentImageFile : Option File
  ocrResult : Option OCRData
  docFileInput : Option File
  selfieFileInput : Option File
  docType : String
  combinedResults : Option (OCRData × FaceData)
  deriving DecidableEq

/-- Default value the `doc-type-ocr` select returns to on `form.reset()`;
its concrete text is irrelevant to every property proved below. -/
def docTypeDefault : String := ""

/-- Path of the OCR endpoint, relative to `API_BASE_URL`. -/
def kycOcrPath : String := "/kyc/ocr"

/-- Path of the face-comparison endpoint, relative to `API_BASE_URL`. -/
def kycFaceComparePath : String := "/kyc/face-compare"

/-- The `goToStep` function: shows the requested wizard step; on the
session state this only changes `currentStep`. -/
def goToStep (s : VerificationState) (stepNumber : Nat) : VerificationState :=
  { s with currentStep := stepNumber }

/-- The `resetVerification` function: nulls the globals `ocrResult` and
`documentImageFile`, resets both forms (clearing the two file inputs and
restoring the document-type select to its default), resets the previews
(not part of the session state), and calls `goToStep(1)`.  It does not
touch the `combined-results` container. -/
def resetVerification (s : VerificationState) : VerificationState :=
  goToStep
    { s with
      ocrResult := none
      documentImageFile := none
      docFileInput := none
      selfieFileInput := none
      docType := docTypeDefault } 1

/-- The `processOCRAndContinue` handler (step 1 form submission).  If no
file is selected it toasts an error and returns.  Otherwise it builds
the multipart form, shows the loading overlay and issues the OCR
request.  On `success` it stores `data.data` into the global
`ocrResult`, toasts success and goes to step 2; on `success:false` it
toasts the server error; a thrown transport error is caught and
toasted.  The response the server would give is passed as `resp`. -/
def processOCRAndContinue (s : VerificationState) (resp : ApiResponse OCRData) :
    VerificationState × List Effect :=
  match s.docFileInput with
  | none => (s, [Effect.toast "Please select a file" "error"])
  | some file =>
    let issued : List Effect :=
      [Effect.loading true,
       Effect.request kycOcrPath
         [("document", FormValue.file file), ("document_type", FormValue.str s.docType)]]
    match resp with
    | ApiResponse.transportError =>
        (s, issued ++ [Effect.loading false, Effect.toast "Error processing document" "error"])
    | ApiResponse.ok success dataOpt err =>
        if success then
          ({ s with ocrResult := dataOpt, currentStep := 2 },
           issued ++ [Effect.loading false,
                      Effect.toast "Document processed! Now upload selfie" "success"])
        else
          (s, issued ++ [Effect.loading false,
                         Effect.toast ("OCR failed: " ++ err) "error"])

/-- The `processFaceComparison` handler (step 2 form submission).  If the
global `documentImageFile` is null it toasts the restart error and
forces step 1 before any network activity.  If no selfie is selected it
toasts and returns.  Otherwise it issues the face-comparison request
with both images.  On `success` it calls
`displayCombinedResults(ocrResult, data.data)` — which dereferences both
payloads, so a null `ocrResult` or a missing `data.data` throws inside
the `try` and lands in the `catch` (second `showLoading(false)` plus the
generic error toast) without reaching `goToStep(3)`; with both payloads
present it renders them, toasts success and goes to step 3.  On
`success:false` it toasts the server error message. -/
def processFaceComparison (s : VerificationState) (resp : ApiResponse FaceData) :
    VerificationState × List Effect :=
  match s.documentImageFile with
  | none =>
      ({ s with currentStep := 1 },
       [Effect.toast "Document image not found. Please start over." "error"])
  | some docFile =>
    match s.selfieFileInput with
    | none => (s, [Effect.toast "Please select a selfie" "error"])
    | some selfieFile =>
      let issued : List Effect :=
        [Effect.loading true,
         Effect.request kycFaceComparePath
           [("document_image", FormValue.file docFile),
            ("selfie_image", FormValue.file selfieFile)]]
      match resp with
      | ApiResponse.transportError =>
          (s, issued ++ [Effect.loading false, Effect.toast "Error comparing faces" "error"])
      | ApiResponse.ok success dataOpt err =>
          if success then
            match s.ocrResult, dataOpt with
            | some o, some fd =>
                ({ s with combinedResults := some (o, fd), currentStep := 3 },
                 issued ++ [Effect.loading false,
                            Effect.toast "Verification complete!" "success"])
            | _, _ =>
                (s, issued ++ [Effect.loading false, Effect.loading false,
                               Effect.toast "Error comparing faces" "error"])
          else
            (s, issued ++ [Effect.loading false,
                           Effect.toast ("Face comparison failed: " ++ err) "error"])

/-- Executable embedding of the JS `String.prototype.startsWith` used by
the drag-and-drop media-type check: character-list prefix test. -/
def strStartsWith (s pre : String) : Bool :=
  pre.data.isPrefixOf s.data

/-- The user-triggerable events of the flow, with the oracle response
attached to the two submissions.  `selectDocument` is the file-picker
`change` handler (which also sets the global `documentImageFile`),
`dropDocument` the drag-and-drop handler (which checks the `image/`
media-type prefix), the `remove` events the two remove buttons,
`selectSelfie` the selfie picker, and `resetFlow` the restart button
calling `resetVerification`. -/
inductive Event where
  | selectDocument (f : File)
  | dropDocument (f : File)
  | removeDocument
  | selectSelfie (f : File)
  | removeSelfie
  | submitDocument (resp : ApiResponse OCRData)
  | submitSelfie (resp : ApiResponse FaceData)
  | resetFlow
  deriving DecidableEq

/-- One event applied to a session state, with its effects. -/
def applyEvent (s : VerificationState) : Event → VerificationState × List Effect
  | Event.selectDocument f =>
      ({ s with docFileInput := some f, documentImageFile := some f }, [])
  | Event.dropDocument f =>
      if strStartsWith f.type "image/" then
        ({ s with docFileInput := some f, documentImageFile := some f }, [])
      else
        (s, [Effect.toast "Please upload an image file" "error"])
  | Event.removeDocument =>
      ({ s with docFileInput := none, documentImageFile := none }, [])
  | Event.selectSelfie f => ({ s with selfieFileInput := some f }, [])
  | Event.removeSelfie => ({ s with selfieFileInput := none }, [])
  | Event.submitDocument resp => processOCRAndContinue s resp
  | Event.submitSelfie resp => processFaceComparison s resp
  | Event.resetFlow => (resetVerification s, [])

/-- Run a list of events from a state, discarding effects. -/
def runEvents (s : VerificationState) : List Event → VerificationState
  | [] => s
  | e :: es => runEvents (applyEvent s e).1 es

/-- The state the wizard starts in: step 1, nothing selected, nothing
stored. -/
def initState : VerificationState :=
  { currentStep := 1
    documentImageFile := none
    ocrResult := none
    docFileInput := none
    selfieFileInput := none
    docType := docTypeDefault
    combinedResults := none }

/-- Whether an effect is an outbound network request. -/
def Effect.isRequest : Effect → Bool
  | Effect.request _ _ => true
  | _ => false

/-- Whether an effect list contains an outbound network request. -/
def issuesRequest (effs : List Effect) : Bool :=
  effs.any Effect.isRequest

/-- Whether an effect list contains an error-severity toast. -/
def hasErrorToast (effs : List Effect) : Bool :=
  effs.any fun e =>
    match e with
    | Effect.toast _ sev => sev == "error"
    | _ => false

/-- A response that the handlers treat as a failure: a transport error
or an explicit `success:false`. -/
def ApiResponse.failedB {α : Type} : ApiResponse α → Bool
  | ApiResponse.transportError => true
  | ApiResponse.ok success _ _ => !success

/-- A response honouring the documented contract: the structured `data`
payload is present whenever `success` is true. -/
def ApiResponse.wfB {α : Type} : ApiResponse α → Bool
  | ApiResponse.transportError => true
  | ApiResponse.ok success dataOpt _ => !success || dataOpt.isSome

/-- An event whose attached server response honours the contract. -/
def Event.wfB : Event → Bool
  | Event.submitDocument r => r.wfB
  | Event.submitSelfie r => r.wfB
  | _ => true

/-- A trace all of whose server responses honour the contract. -/
def eventsWF (tr : List Event) : Bool :=
  tr.all Event.wfB

/-- An event that is a submission carrying a `success:true` response. -/
def Event.isSuccessfulSubmitB : Event → Bool
  | Event.submitDocument (ApiResponse.ok true _ _) => true
  | Event.submitSelfie (ApiResponse.ok true _ _) => true
  | _ => false

/-- Concrete document image used in witnesses. -/
def exDocFile : File := { name := "id_123.jpg", type := "image/jpeg", size := 204800 }

/-- Concrete selfie image used in witnesses. -/
def exSelfieFile : File := { name := "selfie.png", type := "image/png", size := 102400 }

/-- Concrete non-image, zero-byte file used in counterexamples. -/
def exBadFile : File := { name := "notes.txt", type := "text/plain", size := 0 }

/-- Concrete structured OCR payload used in witnesses. -/
def exOCRData : OCRData :=
  { document_type := "passport"
    extracted_details := [("name", "A USER"), ("passport_number", "P1234567")]
    ocr_confidence := 92
    validation := { is_valid := true, confidence_level := "high", issues := [] }
    raw_text := "PASSPORT P1234567 A USER" }

/-- Concrete structured face-comparison payload used in witnesses. -/
def exFaceData : FaceData :=
  { comparison := { similarity_percentage := 87, is_match := true, confidence := 90 }
    verification := { verdict := "MATCH", message := "Faces match",
                      recommendation := "Approve" }
    age_analysis := { significant_gap := false, age_gap := 2 }
    feature_comparison := [("eyes", 91, true), ("nose", 84, true)] }

/-- Trace reaching step 2 normally: pick a document, OCR succeeds, pick
a selfie. -/
def exTrace : List Event :=
  [Event.selectDocument exDocFile,
   Event.submitDocument (ApiResponse.ok true (some exOCRData) ""),
   Event.selectSelfie exSelfieFile]

/-- Trace completing the whole flow up to step 3. -/
def exFullTrace : List Event :=
  exTrace ++ [Event.submitSelfie (ApiResponse.ok true (some exFaceData) "")]

/-- One event preserves the invariant that away from step 1 the OCR
result is populated, provided the event's server response honours the
response contract. -/
theorem applyEvent_ocr_populated (s : VerificationState) (e : Event)
    (hwf : e.wfB = true)
    (hP : s.currentStep ≠ 1 → s.ocrResult.isSome = true) :
    (applyEvent s e).1.currentStep ≠ 1 → (applyEvent s e).1.ocrResult.isSome = true := by
  cases e with
  | selectDocument f => simpa [applyEvent] using hP
  | dropDocument f =>
    by_cases hb : strStartsWith f.type "image/" = true
    · simpa [applyEvent, hb] using hP
    · simp only [Bool.not_eq_true] at hb
      simpa [applyEvent, hb] using hP
  | removeDocument => simpa [applyEvent] using hP
  | selectSelfie f => simpa [applyEvent] using hP
  | removeSelfie => simpa [applyEvent] using hP
  | resetFlow => simp [applyEvent, resetVerification, goToStep]
  | submitDocument r =>
    cases hf : s.docFileInput with
    | none => simpa [applyEvent, processOCRAndContinue, hf] using hP
    | some file =>
      cases r with
      | transportError => simpa [applyEvent, processOCRAndContinue, hf] using hP
      | ok success dataOpt err =>
        cases success with
        | true =>
          intro _
          simp only [Event.wfB, ApiResponse.wfB, Bool.not_true, Bool.false_or] at hwf
          simpa [applyEvent, processOCRAndContinue, hf] using hwf
        | false => simpa [applyEvent, processOCRAndContinue, hf] using hP
  | submitSelfie r =>
    cases hd : s.documentImageFile with
    | none => simp [applyEvent, processFaceComparison, hd]
    | some docFile =>
      cases hs : s.selfieFileInput with
      | none => simpa [applyEvent, processFaceComparison, hd, hs] using hP
      | some selfieFile =>
        cases r with
        | transportError => simpa [applyEvent, processFaceComparison, hd, hs] using hP
        | ok success dataOpt err =>
          cases success with
          | false => simpa [applyEvent, processFaceComparison, hd, hs] using hP
          | true =>
            cases ho : s.ocrResult with
            | none =>
              cases dataOpt with
              | none => simpa [applyEvent, processFaceComparison, hd, hs, ho] using hP
              | some fd => simpa [applyEvent, processFaceComparison, hd, hs, ho] using hP
            | some o =>
              cases dataOpt with
              | none => simp [applyEvent, processFaceComparison, hd, hs, ho]
              | some fd => simp [applyEvent, processFaceComparison, hd, hs, ho]

/-- The invariant of `applyEvent_ocr_populated` carried along a whole
trace of contract-honouring events. -/
theorem runEvents_ocr_populated (tr : List Event) (s : VerificationState)
    (hwf : eventsWF tr = true)
    (hP : s.currentStep ≠ 1 → s.ocrResult.isSome = true) :
    (runEvents s tr).currentStep ≠ 1 → (runEvents s tr).ocrResult.isSome = true := by
  induction tr generalizing s with
  | nil => exact hP
  | cons e es ih =>
    rw [eventsWF, List.all_cons, Bool.and_eq_true] at hwf
    exact ih (applyEvent s e).1 hwf.2 (applyEvent_ocr_populated s e hwf.1 hP)

/-- The wizard step of any state the flow can produce is 1, 2 or 3. -/
def stepInRange (s : VerificationState) : Prop :=
  s.currentStep = 1 ∨ s.currentStep = 2 ∨ s.currentStep = 3

/-- Every event keeps the wizard step inside {1,2,3}: each `goToStep`
call in the flow passes a literal 1, 2 or 3. -/
theorem applyEvent_stepInRange (s : VerificationState) (e : Event)
    (h : stepInRange s) : stepInRange (applyEvent s e).1 := by
  cases e with
  | selectDocument f => simpa [stepInRange, applyEvent] using h
  | dropDocument f =>
    by_cases hb : strStartsWith f.type "image/" = true
    · simpa [stepInRange, applyEvent, hb] using h
    · simp only [Bool.not_eq_true] at hb
      simpa [stepInRange, applyEvent, hb] using h
  | removeDocument => simpa [stepInRange, applyEvent] using h
  | selectSelfie f => simpa [stepInRange, applyEvent] using h
  | removeSelfie => simpa [stepInRange, applyEvent] using h
  | resetFlow => simp [stepInRange, applyEvent, resetVerification, goToStep]
  | submitDocument r =>
    cases hf : s.docFileInput with
    | none => simpa [stepInRange, applyEvent, processOCRAndContinue, hf] using h
    | some file =>
      cases r with
      | transportError =>
        simpa [stepInRange, applyEvent, processOCRAndContinue, hf] using h
      | ok success dataOpt err =>
        cases success with
        | true => simp [stepInRange, applyEvent, processOCRAndContinue, hf]
        | false => simpa [stepInRange, applyEvent, processOCRAndContinue, hf] using h
  | submitSelfie r =>
    cases hd : s.documentImageFile with
    | none => simp [stepInRange, applyEvent, processFaceComparison, hd]
    | some docFile =>
      cases hs : s.selfieFileInput with
      | none => simpa [stepInRange, applyEvent, processFaceComparison, hd, hs] using h
      | some selfieFile =>
        cases r with
        | transportError =>
          simpa [stepInRange, applyEvent, processFaceComparison, hd, hs] using h
        | ok success dataOpt err =>
          cases success with
          | false => simpa [stepInRange, applyEvent, processFaceComparison, hd, hs] using h
          | true =>
            cases ho : s.ocrResult with
            | none =>
              cases dataOpt with
              | none =>
                simpa [stepInRange, applyEvent, processFaceComparison, hd, hs, ho] using h
              | some fd =>
                simpa [stepInRange, applyEvent, processFaceComparison, hd, hs, ho] using h
            | some o =>
              cases dataOpt with
              | none =>
                simpa [stepInRange, applyEvent, processFaceComparison, hd, hs, ho] using h
              | some fd =>
                simp [stepInRange, applyEvent, processFaceComparison, hd, hs, ho]

/-- The step-range invariant carried along a whole trace. -/
theorem runEvents_stepInRange (tr : List Event) (s : VerificationState)
    (h : stepInRange s) : stepInRange (runEvents s tr) := by
  induction tr generalizing s with
  | nil => exact h
  | cons e es ih => exact ih (applyEvent s e).1 (applyEvent_stepInRange s e h)

/-- From any state whose step is at least 1, the only events that can
strictly increase the wizard step are submissions whose response says
`success:true`. -/
theorem applyEvent_advance_only_on_success (s : VerificationState) (e : Event)
    (h1 : 1 ≤ s.currentStep)
    (hlt : s.currentStep < (applyEvent s e).1.currentStep) :
    e.isSuccessfulSubmitB = true := by
  cases e with
  | selectDocument f => simp [applyEvent] at hlt
  | dropDocument f =>
    by_cases hb : strStartsWith f.type "image/" = true
    · simp [applyEvent, hb] at hlt
    · simp only [Bool.not_eq_true] at hb
      simp [applyEvent, hb] at hlt
  | removeDocument => simp [applyEvent] at hlt
  | selectSelfie f => simp [applyEvent] at hlt
  | removeSelfie => simp [applyEvent] at hlt
  | resetFlow =>
    simp [applyEvent, resetVerification, goToStep] at hlt
    omega
  | submitDocument r =>
    cases hf : s.docFileInput with
    | none => simp [applyEvent, processOCRAndContinue, hf] at hlt
    | some file =>
      cases r with
      | transportError => simp [applyEvent, processOCRAndContinue, hf] at hlt
      | ok success dataOpt err =>
        cases success with
        | true => rfl
        | false => simp [applyEvent, processOCRAndContinue, hf] at hlt
  | submitSelfie r =>
    cases hd : s.documentImageFile with
    | none =>
      simp [applyEvent, processFaceComparison, hd] at hlt
      omega
    | some docFile =>
      cases hs : s.selfieFileInput with
      | none => simp [applyEvent, processFaceComparison, hd, hs] at hlt
      | some selfieFile =>
        cases r with
        | transportError => simp [applyEvent, processFaceComparison, hd, hs] at hlt
        | ok success dataOpt err =>
          cases success with
          | true => rfl
          | false => simp [applyEvent, processFaceComparison, hd, hs] at hlt

/-- C1: submitting a selfie while the stored document image is absent
emits the restart error toast, forces `currentStep` to 1, and issues no
face-comparison network request, regardless of whether a selfie file is
attached or what the server would answer. -/
theorem c1_missing_document_aborts (s : VerificationState) (resp : ApiResponse FaceData)
    (h : s.documentImageFile = none) :
    (processFaceComparison s resp).1.currentStep = 1 ∧
    Effect.toast "Document image not found. Please start over." "error"
      ∈ (processFaceComparison s resp).2 ∧
    issuesRequest (processFaceComparison s resp).2 = false := by
  simp [processFaceComparison, h, issuesRequest, Effect.isRequest]

/-- Witness for C1 at a concrete session that even has a selfie
attached. -/
theorem c1_missing_document_aborts_witness :
    (processFaceComparison { initState with selfieFileInput := some exSelfieFile }
        (ApiResponse.ok true (some exFaceData) "")).1.currentStep = 1 ∧
    Effect.toast "Document image not found. Please start over." "error"
      ∈ (processFaceComparison { initState with selfieFileInput := some exSelfieFile }
          (ApiResponse.ok true (some exFaceData) "")).2 ∧
    issuesRequest (processFaceComparison { initState with selfieFileInput := some exSelfieFile }
        (ApiResponse.ok true (some exFaceData) "")).2 = false :=
  c1_missing_document_aborts _ _ rfl

/-- C10: when both the stored document image and the attached selfie are
missing, the missing-document check wins: the only effect is the
document-missing error toast (so no missing-selfie toast and no network
request), and the session is forced to step 1. -/
theorem c10_document_check_precedes_selfie_check (s : VerificationState)
    (resp : ApiResponse FaceData)
    (hd : s.documentImageFile = none) (hs : s.selfieFileInput = none) :
    (processFaceComparison s resp).2 =
      [Effect.toast "Document image not found. Please start over." "error"] ∧
    (processFaceComparison s resp).1.currentStep = 1 ∧
    Effect.toast "Please select a selfie" "error" ∉ (processFaceComparison s resp).2 ∧
    issuesRequest (processFaceComparison s resp).2 = false := by
  simp [processFaceComparison, hd, issuesRequest, Effect.isRequest]

/-- Witness for C10 at the initial session state. -/
theorem c10_document_check_precedes_selfie_check_witness :
    (processFaceComparison initState ApiResponse.transportError).2 =
      [Effect.toast "Document image not found. Please start over." "error"] ∧
    (processFaceComparison initState ApiResponse.transportError).1.currentStep = 1 ∧
    Effect.toast "Please select a selfie" "error"
      ∉ (processFaceComparison initState ApiResponse.transportError).2 ∧
    issuesRequest (processFaceComparison initState ApiResponse.transportError).2 = false :=
  c10_document_check_precedes_selfie_check initState ApiResponse.transportError rfl rfl

/-- C2 counterexample: from the initial state, selecting a document file
and a selfie (without ever completing OCR) reaches a session whose
`ocrResult` is null, and submitting the selfie there still issues the
face-comparison request — `processFaceComparison` guards only on
`documentImageFile`, never on `ocrResult`. -/
theorem c2_counterexample :
    (runEvents initState [Event.selectDocument exDocFile, Event.selectSelfie exSelfieFile]).ocrResult
        = none ∧
    issuesRequest
      (processFaceComparison
        (runEvents initState [Event.selectDocument exDocFile, Event.selectSelfie exSelfieFile])
        (ApiResponse.ok true (some exFaceData) "")).2 = true :=
  ⟨rfl, rfl⟩

/-- C2 amended: whenever `processFaceComparison` issues the
face-comparison request, the stored document image and the attached
selfie are populated at that moment; `ocrResult` is not part of the
guard and may still be null. -/
theorem c2_amended_request_guard (s : VerificationState) (resp : ApiResponse FaceData)
    (h : issuesRequest (processFaceComparison s resp).2 = true) :
    s.documentImageFile.isSome = true ∧ s.selfieFileInput.isSome = true := by
  cases hd : s.documentImageFile with
  | none => simp [processFaceComparison, hd, issuesRequest, Effect.isRequest] at h
  | some docFile =>
    cases hs : s.selfieFileInput with
    | none => simp [processFaceComparison, hd, hs, issuesRequest, Effect.isRequest] at h
    | some selfieFile => simp

/-- Witness for the amended C2 at the session of the counterexample
trace. -/
theorem c2_amended_request_guard_witness :
    (runEvents initState [Event.selectDocument exDocFile, Event.selectSelfie exSelfieFile]).documentImageFile.isSome
        = true ∧
    (runEvents initState [Event.selectDocument exDocFile, Event.selectSelfie exSelfieFile]).selfieFileInput.isSome
        = true :=
  c2_amended_request_guard
    (runEvents initState [Event.selectDocument exDocFile, Event.selectSelfie exSelfieFile])
    (ApiResponse.ok true (some exFaceData) "") rfl

/-- C4: a successful OCR submission (request issued because a document
file is attached, response `success:true` with a payload) moves the
session from step 1 to step 2 (a strict increase), stores the payload
into `ocrResult`, and leaves the stored document image untouched for
later reuse by the face comparison. -/
theorem c4_ocr_success_advances (s : VerificationState) (d : OCRData) (err : String)
    (h1 : s.currentStep = 1) (hfile : s.docFileInput.isSome = true) :
    (processOCRAndContinue s (ApiResponse.ok true (some d) err)).1.currentStep = 2 ∧
    s.currentStep < (processOCRAndContinue s (ApiResponse.ok true (some d) err)).1.currentStep ∧
    (processOCRAndContinue s (ApiResponse.ok true (some d) err)).1.ocrResult = some d ∧
    (processOCRAndContinue s (ApiResponse.ok true (some d) err)).1.documentImageFile
        = s.documentImageFile := by
  obtain ⟨f, hf⟩ := Option.isSome_iff_exists.mp hfile
  simp [processOCRAndContinue, hf, h1]

/-- Witness for C4: the OCR submission of the example trace. -/
theorem c4_ocr_success_advances_witness :
    (processOCRAndContinue (runEvents initState [Event.selectDocument exDocFile])
        (ApiResponse.ok true (some exOCRData) "")).1.currentStep = 2 ∧
    (runEvents initState [Event.selectDocument exDocFile]).currentStep <
      (processOCRAndContinue (runEvents initState [Event.selectDocument exDocFile])
        (ApiResponse.ok true (some exOCRData) "")).1.currentStep ∧
    (processOCRAndContinue (runEvents initState [Event.selectDocument exDocFile])
        (ApiResponse.ok true (some exOCRData) "")).1.ocrResult = some exOCRData ∧
    (processOCRAndContinue (runEvents initState [Event.selectDocument exDocFile])
        (ApiResponse.ok true (some exOCRData) "")).1.documentImageFile
        = (runEvents initState [Event.selectDocument exDocFile]).documentImageFile :=
  c4_ocr_success_advances (runEvents initState [Event.selectDocument exDocFile])
    exOCRData "" rfl rfl

/-- C5: a failed OCR submission — explicit `success:false` or a thrown
transport error — returns the session unchanged (so `currentStep` stays
at 1 and `ocrResult` stays unset) and toasts an error; no exception
escapes, which the embedding expresses by `processOCRAndContinue` being
total, its transport-error branch included. -/
theorem c5_ocr_failure_leaves_state (s : VerificationState) (resp : ApiResponse OCRData)
    (h1 : s.currentStep = 1) (hocr : s.ocrResult = none)
    (hfail : resp.failedB = true) :
    (processOCRAndContinue s resp).1 = s ∧
    (processOCRAndContinue s resp).1.currentStep = 1 ∧
    (processOCRAndContinue s resp).1.ocrResult = none ∧
    hasErrorToast (processOCRAndContinue s resp).2 = true := by
  cases hf : s.docFileInput with
  | none => simp [processOCRAndContinue, hf, h1, hocr, hasErrorToast]
  | some file =>
    cases resp with
    | transportError => simp [processOCRAndContinue, hf, h1, hocr, hasErrorToast]
    | ok success dataOpt err =>
      cases success with
      | true => simp [ApiResponse.failedB] at hfail
      | false => simp [processOCRAndContinue, hf, h1, hocr, hasErrorToast]

/-- Witness for C5: a transport error on the session with the example
document attached. -/
theorem c5_ocr_failure_leaves_state_witness :
    (processOCRAndContinue (runEvents initState [Event.selectDocument exDocFile])
        ApiResponse.transportError).1
      = runEvents initState [Event.selectDocument exDocFile] ∧
    (processOCRAndContinue (runEvents initState [Event.selectDocument exDocFile])
        ApiResponse.transportError).1.currentStep = 1 ∧
    (processOCRAndContinue (runEvents initState [Event.selectDocument exDocFile])
        ApiResponse.transportError).1.ocrResult = none ∧
    hasErrorToast (processOCRAndContinue (runEvents initState [Event.selectDocument exDocFile])
        ApiResponse.transportError).2 = true :=
  c5_ocr_failure_leaves_state (runEvents initState [Event.selectDocument exDocFile])
    ApiResponse.transportError rfl rfl rfl

/-- C6: a face-comparison response `success:false` with an error message
(from a session that issued the request: step 2, document image and
selfie present) leaves the session state completely unmutated — in
particular `currentStep` stays 2 — and toasts an error notification
containing the server's message. -/
theorem c6_face_failure_keeps_step (s : VerificationState) (dataOpt : Option FaceData)
    (msg : String) (h2 : s.currentStep = 2)
    (hdoc : s.documentImageFile.isSome = true) (hsf : s.selfieFileInput.isSome = true) :
    (processFaceComparison s (ApiResponse.ok false dataOpt msg)).1 = s ∧
    (processFaceComparison s (ApiResponse.ok false dataOpt msg)).1.currentStep = 2 ∧
    Effect.toast ("Face comparison failed: " ++ msg) "error"
      ∈ (processFaceComparison s (ApiResponse.ok false dataOpt msg)).2 := by
  obtain ⟨docFile, hd⟩ := Option.isSome_iff_exists.mp hdoc
  obtain ⟨selfieFile, hs⟩ := Option.isSome_iff_exists.mp hsf
  simp [processFaceComparison, hd, hs, h2]

/-- Witness for C6: the spec scenario, a `face not detected` failure at
the step-2 session of the example trace. -/
theorem c6_face_failure_keeps_step_witness :
    (processFaceComparison (runEvents initState exTrace)
        (ApiResponse.ok false none "face not detected")).1 = runEvents initState exTrace ∧
    (processFaceComparison (runEvents initState exTrace)
        (ApiResponse.ok false none "face not detected")).1.currentStep = 2 ∧
    Effect.toast ("Face comparison failed: " ++ "face not detected") "error"
      ∈ (processFaceComparison (runEvents initState exTrace)
          (ApiResponse.ok false none "face not detected")).2 :=
  c6_face_failure_keeps_step (runEvents initState exTrace) none "face not detected"
    rfl rfl rfl

/-- C7 counterexample: after completing the flow (the face-comparison
payload has been rendered into the `combined-results` container),
`resetVerification` leaves that rendered payload in place —
`resetVerification` never touches the container, so the session's only
copy of `faceComparisonResult` is retained across the reset and the
claim that reset clears all four fields fails here. -/
theorem c7_counterexample :
    (resetVerification (runEvents initState exFullTrace)).combinedResults
        = some (exOCRData, exFaceData) ∧
    (resetVerification (runEvents initState exFullTrace)).combinedResults ≠ none := by
  refine ⟨rfl, ?_⟩
  rw [show (resetVerification (runEvents initState exFullTrace)).combinedResults
        = some (exOCRData, exFaceData) from rfl]
  simp

/-- C7 amended: `resetVerification`, from any session state, clears the
document image, the OCR result, both file-input selections and the
document-type select, sets `currentStep` to 1, and is idempotent; it
does not clear the face-comparison payload rendered into the
`combined-results` container, which persists across the reset. -/
theorem c7_amended_reset_clears_and_idempotent (s : VerificationState) :
    (resetVerification s).currentStep = 1 ∧
    (resetVerification s).documentImageFile = none ∧
    (resetVerification s).ocrResult = none ∧
    (resetVerification s).docFileInput = none ∧
    (resetVerification s).selfieFileInput = none ∧
    (resetVerification s).combinedResults = s.combinedResults ∧
    resetVerification (resetVerification s) = resetVerification s := by
  simp [resetVerification, goToStep]

/-- C9 counterexample: a zero-byte `text/plain` file attached through
the file-picker path is accepted and submitting it issues the OCR
request — the submission path checks only that some file is attached,
not its media type or non-emptiness. -/
theorem c9_counterexample :
    strStartsWith exBadFile.type "image/" = false ∧
    exBadFile.size = 0 ∧
    issuesRequest
      (processOCRAndContinue (runEvents initState [Event.selectDocument exBadFile])
        (ApiResponse.ok false none "no text found")).2 = true :=
  ⟨rfl, rfl, rfl⟩

/-- C9 amended: `processOCRAndContinue` issues the OCR request exactly
when a file is attached to the document input, forwarding the file and
the `documentType` value verbatim with no client-side validation of
either; when no file is attached it makes no network call, toasts an
error and leaves the session unchanged; the `image/` media-type prefix
is enforced only on the drag-and-drop attach path, which rejects
non-image files with a toast and leaves the session unchanged. -/
theorem c9_amended_submit_guard (s : VerificationState) (resp : ApiResponse OCRData) :
    (s.docFileInput = none →
      (processOCRAndContinue s resp).1 = s ∧
      issuesRequest (processOCRAndContinue s resp).2 = false ∧
      Effect.toast "Please select a file" "error" ∈ (processOCRAndContinue s resp).2) ∧
    (∀ f, s.docFileInput = some f →
      Effect.request kycOcrPath
          [("document", FormValue.file f), ("document_type", FormValue.str s.docType)]
        ∈ (processOCRAndContinue s resp).2) ∧
    (∀ f, strStartsWith f.type "image/" = false →
      applyEvent s (Event.dropDocument f) =
        (s, [Effect.toast "Please upload an image file" "error"])) := by
  refine ⟨fun hn => ?_, fun f hf => ?_, fun f hf => ?_⟩
  · simp [processOCRAndContinue, hn, issuesRequest, Effect.isRequest]
  · cases resp with
    | transportError => simp [processOCRAndContinue, hf]
    | ok success dataOpt err =>
      cases success with
      | true => simp [processOCRAndContinue, hf]
      | false => simp [processOCRAndContinue, hf]
  · simp [applyEvent, hf]

/-- Witness for the amended C9: the empty-input case, the attached
non-image case, and the drag-and-drop rejection, all at concrete
sessions. -/
theorem c9_amended_submit_guard_witness :
    ((processOCRAndContinue initState ApiResponse.transportError).1 = initState ∧
      issuesRequest (processOCRAndContinue initState ApiResponse.transportError).2 = false ∧
      Effect.toast "Please select a file" "error"
        ∈ (processOCRAndContinue initState ApiResponse.transportError).2) ∧
    Effect.request kycOcrPath
        [("document", FormValue.file exBadFile),
         ("document_type", FormValue.str docTypeDefault)]
      ∈ (processOCRAndContinue (runEvents initState [Event.selectDocument exBadFile])
          ApiResponse.transportError).2 ∧
    applyEvent initState (Event.dropDocument exBadFile) =
      (initState, [Effect.toast "Please upload an image file" "error"]) :=
  ⟨(c9_amended_submit_guard initState ApiResponse.transportError).1 rfl,
   (c9_amended_submit_guard (runEvents initState [Event.selectDocument exBadFile])
      ApiResponse.transportError).2.1 exBadFile rfl,
   (c9_amended_submit_guard initState ApiResponse.transportError).2.2 exBadFile rfl⟩

/-- C3: in any session the flow can reach under contract-honouring
server responses, a step-2 selfie submission (document image and selfie
attached, so the request goes out) whose response is `success:true`
with a payload moves the session to step 3 — a strict increase from 2 —
and stores the comparison payload, paired with the OCR result rendered
alongside it, into the `combined-results` container, which is non-empty
afterwards. -/
theorem c3_face_success_advances (s : VerificationState) (fd : FaceData) (err : String)
    (hreach : ∃ tr, eventsWF tr = true ∧ runEvents initState tr = s)
    (h2 : s.currentStep = 2)
    (hdoc : s.documentImageFile.isSome = true)
    (hsf : s.selfieFileInput.isSome = true) :
    (processFaceComparison s (ApiResponse.ok true (some fd) err)).1.currentStep = 3 ∧
    s.currentStep < (processFaceComparison s (ApiResponse.ok true (some fd) err)).1.currentStep ∧
    ∃ o, s.ocrResult = some o ∧
      (processFaceComparison s (ApiResponse.ok true (some fd) err)).1.combinedResults
        = some (o, fd) := by
  obtain ⟨tr, hwf, hrun⟩ := hreach
  have hocr : s.ocrResult.isSome = true := by
    have h0 : initState.currentStep ≠ 1 → initState.ocrResult.isSome = true := by
      intro h
      exact absurd rfl h
    have hinv := runEvents_ocr_populated tr initState hwf h0
    rw [hrun] at hinv
    exact hinv (by rw [h2]; omega)
  obtain ⟨o, ho⟩ := Option.isSome_iff_exists.mp hocr
  obtain ⟨docFile, hd⟩ := Option.isSome_iff_exists.mp hdoc
  obtain ⟨selfieFile, hs⟩ := Option.isSome_iff_exists.mp hsf
  refine ⟨?_, ?_, o, ho, ?_⟩ <;> simp [processFaceComparison, hd, hs, ho, h2]

/-- Witness for C3 at the session reached by the example trace. -/
theorem c3_face_success_advances_witness :
    (processFaceComparison (runEvents initState exTrace)
        (ApiResponse.ok true (some exFaceData) "")).1.currentStep = 3 ∧
    (runEvents initState exTrace).currentStep <
      (processFaceComparison (runEvents initState exTrace)
        (ApiResponse.ok true (some exFaceData) "")).1.currentStep :=
  ⟨(c3_face_success_advances (runEvents initState exTrace) exFaceData ""
      ⟨exTrace, rfl, rfl⟩ rfl rfl rfl).1,
   (c3_face_success_advances (runEvents initState exTrace) exFaceData ""
      ⟨exTrace, rfl, rfl⟩ rfl rfl rfl).2.1⟩

/-- C8: along any event trace from the initial session, `currentStep`
stays in {1,2,3} (so it never passes 3), and from any state with a
step of at least 1 the only events that strictly increase the step are
OCR or face-comparison submissions whose remote call answered
`success:true`. -/
theorem c8_step_invariant (tr : List Event) :
    ((runEvents initState tr).currentStep = 1 ∨ (runEvents initState tr).currentStep = 2 ∨
      (runEvents initState tr).currentStep = 3) ∧
    ∀ (s : VerificationState) (e : Event), 1 ≤ s.currentStep →
      s.currentStep < (applyEvent s e).1.currentStep →
      e.isSuccessfulSubmitB = true := by
  constructor
  · exact runEvents_stepInRange tr initState (Or.inl rfl)
  · exact fun s e h1 hlt => applyEvent_advance_only_on_success s e h1 hlt

/-- Witness for C8 at the full example trace and the example successful
OCR submission. -/
theorem c8_step_invariant_witness :
    ((runEvents initState exFullTrace).currentStep = 1 ∨
      (runEvents initState exFullTrace).currentStep = 2 ∨
      (runEvents initState exFullTrace).currentStep = 3) ∧
    Event.isSuccessfulSubmitB
      (Event.submitDocument (ApiResponse.ok true (some exOCRData) "")) = true :=
  ⟨(c8_step_invariant exFullTrace).1,
   (c8_step_invariant exFullTrace).2 (runEvents initState [Event.selectDocument exDocFile])
     (Event.submitDocument (ApiResponse.ok true (some exOCRData) ""))
     (by decide) (by decide)⟩

end FinGuard
